import Mathlib

/-!
Shallow embedding of the NL-to-SQL generation protocol of this repository
(the nl2sql lambda): the sanitization pipeline applied to model completions,
the sentinel check, the schema-fetch step, the two-round completion
negotiation in XAIClient.generate_sql, and the HTTP handler wrapper.

Network effects are modelled by wire types describing the outcome of each
of the three possible network calls (schema fetch, first completion,
follow-up completion); the functions below are the deterministic control
flow of the source over those outcomes.  The returned CallCounts record how
many schema-API and completion-API requests the control flow issued.
-/

namespace ChatDB

/-- The whitespace characters stripped by Python str.strip with no
argument (ASCII range, as relevant to model completions). -/
def pyWhitespace (c : Char) : Bool :=
  c = ' ' || c = '\t' || c = '\n' || c = '\r' || c = '\x0b' || c = '\x0c'

/-- The double-quote character class used by str.strip with a quote argument. -/
def isQuoteChar (c : Char) : Bool := c = '"'

/-- Python s.strip(chars): drop characters satisfying p from both ends. -/
def pyStripList (p : Char → Bool) (l : List Char) : List Char :=
  ((l.dropWhile p).reverse.dropWhile p).reverse

/-- str.strip() on a character list. -/
def pyStrip (l : List Char) : List Char := pyStripList pyWhitespace l

/-- str.strip of the double-quote character on a character list: removes ALL
leading and trailing double quotes. -/
def pyStripQuotes (l : List Char) : List Char := pyStripList isQuoteChar l

/-- Python s.replace of the two-character backslash-quote sequence by the
empty string: a single left-to-right pass removing each non-overlapping
occurrence. -/
def removeEscapedQuotes : List Char → List Char
  | [] => []
  | [c] => [c]
  | c :: d :: rest =>
    if c = '\\' ∧ d = '"' then removeEscapedQuotes rest
    else c :: removeEscapedQuotes (d :: rest)

/-- The sanitization applied to the raw first-completion content in
generate_sql: content.strip().strip(quote).replace(backslash-quote, empty). -/
def sanitizeList (l : List Char) : List Char :=
  removeEscapedQuotes (pyStripQuotes (pyStrip l))

/-- String form of the sanitization pipeline. -/
def sanitize (s : String) : String := String.mk (sanitizeList s.data)

/-- str.startswith applied to the one-character sentinel: the first
character is the sentinel character. -/
def startsWithX : List Char → Bool
  | c :: _ => decide (c = 'X')
  | [] => false

/-- The sentinel test of generate_sql: sql_query equals the sentinel string
or starts with the sentinel character. -/
def isSentinel (l : List Char) : Bool :=
  decide (l = ['X']) || startsWithX l

/-- One row returned by the information_schema.columns query. -/
structure SchemaEntry where
  table_name : String
  column_name : String
  data_type : String
  ordinal_position : Nat
deriving DecidableEq, Repr

/-- The ordered list of schema rows for a database. -/
abbrev SchemaDescription := List SchemaEntry

/-- Outcome of the schema-API POST issued by fetch_table_structure:
a non-2xx status (httpx.HTTPStatusError), a connection-level failure
(httpx.RequestError), a JSON-parse failure of the body (ValueError), or a
parsed body. -/
inductive FetchWire
  | httpStatusError (status : Nat)
  | requestError
  | parseError
  | ok (body : SchemaDescription)
deriving DecidableEq, Repr

/-- fetch_table_structure: issues the schema query and maps each failure to
the exception message it raises. -/
def fetch_table_structure : FetchWire → Except String SchemaDescription
  | .httpStatusError _ => .error "Failed to fetch table structure"
  | .requestError => .error "Failed to fetch table structure"
  | .parseError => .error "Invalid schema API response format"
  | .ok body => .ok body

/-- get_valid_tables: fetches the schema and pairs the lowercased table
names with the raw structure (the Python set of names is modelled as the
list of its elements). -/
def get_valid_tables (w : FetchWire) :
    Except String (List String × SchemaDescription) := do
  let ts ← fetch_table_structure w
  pure (ts.map (fun e => String.map Char.toLower e.table_name), ts)

/-- The message object of one completion choice; content none models a
response whose message carries no content key (the code defaults it to the
empty string). -/
structure Message where
  content : Option String
deriving DecidableEq, Repr

/-- One element of the choices list; message none models a choice whose
message key is absent or falsy. -/
structure Choice where
  message : Option Message
deriving DecidableEq, Repr

/-- A parsed completion-API response body; a missing choices key is
modelled by the empty list (the code defaults it to an empty list). -/
structure ApiResponse where
  choices : List Choice
deriving DecidableEq, Repr

/-- Outcome of one completion-API POST: non-2xx status, connection-level
failure, body-parse failure, or a parsed response. -/
inductive CallWire
  | httpStatusError (status : Nat)
  | requestError
  | parseError
  | ok (resp : ApiResponse)
deriving DecidableEq, Repr

/-- The outcomes the network would deliver for the three possible calls of
one generate_sql invocation. -/
structure Env where
  schemaWire : FetchWire
  firstWire : CallWire
  followUpWire : CallWire
deriving DecidableEq, Repr

/-- Number of schema-API and completion-API requests issued. -/
structure CallCounts where
  schemaCalls : Nat
  completionCalls : Nat
deriving DecidableEq, Repr

/-- The default reason substituted when no error explanation is available. -/
def DEFAULT_REASON : String := "Failed to determine error reason"

/-- XAIClient.generate_sql: fetch the schema (any failure short-circuits),
send the first completion request, sanitize the content, and either return
it as SQL or — on the sentinel — issue one follow-up request for an error
explanation.  Returns the (sql_query, error_reason) pair together with the
number of network requests issued.  The nl_instruction only feeds the
prompts, which the wire outcomes absorb. -/
def generate_sql (nl_instruction : String) (env : Env) :
    (String × String) × CallCounts :=
  match get_valid_tables env.schemaWire with
  | .error _ => (("", "Failed to fetch table structure"), ⟨1, 0⟩)
  | .ok _ =>
    match env.firstWire with
    | .httpStatusError st => (("", "API error: " ++ toString st), ⟨1, 1⟩)
    | .requestError => (("", "API request failed"), ⟨1, 1⟩)
    | .parseError => (("", "Invalid API response format"), ⟨1, 1⟩)
    | .ok resp =>
      match resp.choices with
      | [] => (("", "Invalid API response structure"), ⟨1, 1⟩)
      | c :: _ =>
        match c.message with
        | none => (("", "Invalid API response structure"), ⟨1, 1⟩)
        | some m =>
          let content := m.content.getD ""
          let sql_query := sanitize content
          if isSentinel sql_query.data then
            match env.followUpWire with
            | .httpStatusError st =>
              (("", "API error: " ++ toString st), ⟨1, 2⟩)
            | .requestError => (("", "API request failed"), ⟨1, 2⟩)
            | .parseError => (("", "Invalid API response format"), ⟨1, 2⟩)
            | .ok fresp =>
              match fresp.choices with
              | [] => (("", DEFAULT_REASON), ⟨1, 2⟩)
              | fc :: _ =>
                match fc.message with
                | none => (("", DEFAULT_REASON), ⟨1, 2⟩)
                | some fm =>
                  let follow_up_content := fm.content.getD ""
                  let error_reason := String.mk (pyStrip follow_up_content.data)
                  if error_reason = "" then (("", DEFAULT_REASON), ⟨1, 2⟩)
                  else (("", error_reason), ⟨1, 2⟩)
          else ((sql_query, ""), ⟨1, 1⟩)

/-- The content of the first completion as generate_sql extracts it, when
the structural checks pass. -/
def firstContent (env : Env) : Option String :=
  match env.firstWire with
  | .ok resp =>
    match resp.choices with
    | c :: _ =>
      match c.message with
      | some m => some (m.content.getD "")
      | none => none
    | [] => none
  | _ => none

/-- The sentinel (follow-up) path is taken: the schema fetch succeeded, the
first completion passed the structural checks, and its sanitized content
satisfies the sentinel test. -/
def sentinelTaken (env : Env) : Bool :=
  match env.schemaWire with
  | .ok _ =>
    match firstContent env with
    | some s => isSentinel (sanitizeList s.data)
    | none => false
  | _ => false

/-- Modelled from the spec words of the sanitization claim, for comparison
with the code: trims surrounding whitespace, removes exactly ONE layer of
surrounding quote characters, then removes escaped-quote sequences. -/
def sanitizeSingleLayerSpec (l : List Char) : List Char :=
  let t := pyStrip l
  let t :=
    match t with
    | '"' :: rest =>
      if rest.getLast? = some '"' then rest.dropLast else '"' :: rest
    | _ => t
  removeEscapedQuotes t

/-- An incoming request to the generation endpoint; query none models a
missing query key or a non-string value. -/
structure LambdaRequest where
  bodyIsValidJson : Bool
  query : Option String
deriving DecidableEq, Repr

/-- The JSON body of an endpoint response: either an error object or a
sql_query / error_reason object. -/
inductive ResponseBody
  | errorBody (msg : String)
  | resultBody (sql_query : String) (error_reason : String)
deriving DecidableEq, Repr

/-- An endpoint response: status code, presence of the permissive CORS
header, and body. -/
structure LambdaResponse where
  statusCode : Nat
  corsAllowOrigin : Bool
  body : ResponseBody
deriving DecidableEq, Repr

/-- The _handle entrypoint of the nl2sql lambda: parse the body, validate
the query field, construct the client (a missing API key raises at
construction and is caught by the outer handler as a 502), run generate_sql
and wrap its outcome in a 200 response.  Every branch carries the
permissive CORS header. -/
def handle (req : LambdaRequest) (apiKeyPresent : Bool) (env : Env) :
    LambdaResponse × CallCounts :=
  match req.bodyIsValidJson with
  | false => (⟨400, true, .errorBody "Invalid JSON in request body"⟩, ⟨0, 0⟩)
  | true =>
    match req.query with
    | none =>
      (⟨400, true, .errorBody "Missing or invalid \x27query\x27 field"⟩, ⟨0, 0⟩)
    | some nl =>
      if pyStrip nl.data = [] then
        (⟨400, true, .errorBody "Missing or invalid \x27query\x27 field"⟩, ⟨0, 0⟩)
      else
        match apiKeyPresent with
        | false => (⟨502, true, .errorBody "XAI_API_KEY is missing"⟩, ⟨0, 0⟩)
        | true =>
          let r := generate_sql (String.mk (pyStrip nl.data)) env
          if r.1.1 = "" then
            (⟨200, true, .resultBody "" r.1.2⟩, r.2)
          else
            (⟨200, true, .resultBody r.1.1 ""⟩, r.2)

/-- The reason string the sentinel path produces from the follow-up call
outcome (a proof device summarizing the follow-up branch of generate_sql). -/
def followupReason : CallWire → String
  | .httpStatusError st => "API error: " ++ toString st
  | .requestError => "API request failed"
  | .parseError => "Invalid API response format"
  | .ok fresp =>
    match fresp.choices with
    | [] => DEFAULT_REASON
    | fc :: _ =>
      match fc.message with
      | none => DEFAULT_REASON
      | some fm =>
        if pyStrip (fm.content.getD "").data = [] then DEFAULT_REASON
        else String.mk (pyStrip (fm.content.getD "").data)

/-! ### Helper lemmas about the sanitization pipeline -/

lemma dropWhile_cons_pos {p : Char → Bool} {a : Char} {l : List Char}
    (h : p a = true) : List.dropWhile p (a :: l) = List.dropWhile p l := by
  simp [List.dropWhile, h]

lemma dropWhile_cons_neg {p : Char → Bool} {a : Char} {l : List Char}
    (h : p a = false) : List.dropWhile p (a :: l) = a :: l := by
  simp [List.dropWhile, h]

lemma dropWhile_append_nil {p : Char → Bool} {u : List Char}
    (h : List.dropWhile p u = []) (v : List Char) :
    List.dropWhile p (u ++ v) = List.dropWhile p v := by
  induction u with
  | nil => simp
  | cons a u ih =>
    cases ha : p a with
    | true =>
      rw [dropWhile_cons_pos ha] at h
      rw [List.cons_append, dropWhile_cons_pos ha]
      exact ih h
    | false =>
      rw [dropWhile_cons_neg ha] at h
      exact absurd h (List.cons_ne_nil a u)

lemma dropWhile_append_ne_nil {p : Char → Bool} {u : List Char}
    (h : List.dropWhile p u ≠ []) (v : List Char) :
    List.dropWhile p (u ++ v) = List.dropWhile p u ++ v := by
  induction u with
  | nil => simp at h
  | cons a u ih =>
    cases ha : p a with
    | true =>
      rw [dropWhile_cons_pos ha] at h
      rw [List.cons_append, dropWhile_cons_pos ha, dropWhile_cons_pos ha]
      exact ih h
    | false =>
      rw [List.cons_append, dropWhile_cons_neg ha, dropWhile_cons_neg ha]
      rfl

/-- Stripping a character class from both ends fixes a list whose first and
last characters are outside the class. -/
lemma pyStripList_id (p : Char → Bool) (a b : Char) (m : List Char)
    (ha : p a = false) (hb : p b = false) :
    pyStripList p (a :: (m ++ [b])) = a :: (m ++ [b]) := by
  unfold pyStripList
  rw [dropWhile_cons_neg ha]
  have h1 : (a :: (m ++ [b])).reverse = b :: (m.reverse ++ [a]) := by simp
  rw [h1, dropWhile_cons_neg hb]
  have h2 : (b :: (m.reverse ++ [a])).reverse = a :: (m ++ [b]) := by simp
  rw [h2]

/-- Stripping all surrounding quotes ignores one more surrounding layer. -/
lemma stripQuotes_wrap (l : List Char) :
    pyStripQuotes ('"' :: (l ++ ['"'])) = pyStripQuotes l := by
  unfold pyStripQuotes pyStripList
  rw [dropWhile_cons_pos (show isQuoteChar '"' = true from rfl)]
  cases hd : List.dropWhile isQuoteChar l with
  | nil =>
    rw [dropWhile_append_nil hd]
    rfl
  | cons c m =>
    rw [dropWhile_append_ne_nil (by rw [hd]; exact List.cons_ne_nil c m), hd]
    have h1 : ((c :: m) ++ ['"']).reverse = '"' :: (c :: m).reverse := by simp
    rw [h1, dropWhile_cons_pos (show isQuoteChar '"' = true from rfl)]

lemma removeEscapedQuotes_cons_ne (a : Char) (l : List Char)
    (h : ¬ a = '\\') :
    removeEscapedQuotes (a :: l) = a :: removeEscapedQuotes l := by
  cases l with
  | nil => rfl
  | cons d rest => simp [removeEscapedQuotes, h]

/-- The single-pass removal erases an occurrence of the escaped-quote
sequence sitting after a backslash-free prefix. -/
lemma removeEscapedQuotes_append (u v : List Char) (h : '\\' ∉ u) :
    removeEscapedQuotes (u ++ '\\' :: '"' :: v) = u ++ removeEscapedQuotes v := by
  induction u with
  | nil => simp [removeEscapedQuotes]
  | cons a u ih =>
    have ha : ¬ a = '\\' := fun e => h (by rw [e]; exact List.mem_cons_self _ _)
    have hu : '\\' ∉ u := fun hm => h (List.mem_cons_of_mem a hm)
    rw [List.cons_append, removeEscapedQuotes_cons_ne a _ ha, ih hu,
      List.cons_append]

/-- Destructor for a taken sentinel path: the schema fetch succeeded, the
first completion was structurally valid, and its sanitized content passed
the sentinel test. -/
lemma sentinelTaken_elim {env : Env} (h : sentinelTaken env = true) :
    ∃ body resp c rest m,
      env.schemaWire = FetchWire.ok body ∧
      env.firstWire = CallWire.ok resp ∧
      resp.choices = c :: rest ∧
      c.message = some m ∧
      isSentinel (sanitizeList (m.content.getD "").data) = true := by
  obtain ⟨sw, fw, uw⟩ := env
  cases sw with
  | httpStatusError st => exact Bool.noConfusion h
  | requestError => exact Bool.noConfusion h
  | parseError => exact Bool.noConfusion h
  | ok body =>
    cases fw with
    | httpStatusError st => exact Bool.noConfusion h
    | requestError => exact Bool.noConfusion h
    | parseError => exact Bool.noConfusion h
    | ok resp =>
      obtain ⟨choices⟩ := resp
      cases choices with
      | nil => exact Bool.noConfusion h
      | cons c rest =>
        obtain ⟨msg⟩ := c
        cases msg with
        | none => exact Bool.noConfusion h
        | some m =>
          simp only [sentinelTaken, firstContent] at h
          exact ⟨body, ⟨⟨some m⟩ :: rest⟩, ⟨some m⟩, rest, m, rfl, rfl, rfl, rfl, h⟩

/-- On the sentinel path the outcome is fully determined by the follow-up
wire outcome: the sql field is empty and the reason is followupReason. -/
lemma generate_sql_sentinel_eq (inst : String) (env : Env)
    (h : sentinelTaken env = true) :
    generate_sql inst env = (("", followupReason env.followUpWire), ⟨1, 2⟩) := by
  obtain ⟨body, resp, c, rest', m, hs, hf, hc, hm, hsent⟩ := sentinelTaken_elim h
  obtain ⟨sw, fw, uw⟩ := env
  try dsimp only at hs hf
  subst hs; subst hf
  obtain ⟨choices⟩ := resp
  try dsimp only at hc
  subst hc
  obtain ⟨msg⟩ := c
  try dsimp only at hm
  subst hm
  simp only [generate_sql]
  rw [show (sanitize (m.content.getD "")).data
      = sanitizeList (m.content.getD "").data from rfl, hsent]
  simp only [if_true]
  cases uw with
  | httpStatusError st => rfl
  | requestError => rfl
  | parseError => rfl
  | ok fresp =>
    obtain ⟨fchoices⟩ := fresp
    cases fchoices with
    | nil => rfl
    | cons fc frest =>
      obtain ⟨fmsg⟩ := fc
      cases fmsg with
      | none => rfl
      | some fm =>
        dsimp only [followupReason]
        by_cases hr : pyStrip (fm.content.getD "").data = []
        · rw [hr]
          rw [if_pos (by decide), if_pos rfl]
          rfl
        · have hne' : String.mk (pyStrip (fm.content.getD "").data) ≠ "" := by
            intro hh
            apply hr
            have hd := congrArg String.data hh
            simpa using hd
          rw [if_neg hne', if_neg hr]
          rfl

/-! ### Claim theorems -/

/-- Claim C1, counterexample: a structurally valid first completion whose
content is the empty string sanitizes to the empty string, is not the
sentinel, and generate_sql returns BOTH fields empty — no normalization to
the default reason happens, refuting the claimed invariant. -/
theorem C1_counterexample :
    (generate_sql "Get all customers"
        ⟨FetchWire.ok [], CallWire.ok ⟨[⟨some ⟨some ""⟩⟩]⟩, CallWire.requestError⟩).1
      = ("", "") := by decide

/-- Claim C1 (amended): generate_sql never returns both fields non-empty,
and on the sentinel path an empty trimmed follow-up explanation is
normalized to the default reason; but a non-sentinel first completion that
sanitizes to the empty string yields sql and reason both empty — the
both-empty normalization applies only to the follow-up reason. -/
theorem C1_amended (inst : String) (env : Env) :
    ((generate_sql inst env).1.1 = "" ∨ (generate_sql inst env).1.2 = "")
    ∧ (sentinelTaken env = true →
        ∀ fresp fc rest fm,
          env.followUpWire = CallWire.ok fresp →
          fresp.choices = fc :: rest →
          fc.message = some fm →
          pyStrip (fm.content.getD "").data = [] →
          (generate_sql inst env).1.2 = DEFAULT_REASON) := by
  constructor
  · obtain ⟨sw, fw, uw⟩ := env
    cases sw with
    | httpStatusError st => left; rfl
    | requestError => left; rfl
    | parseError => left; rfl
    | ok body =>
      cases fw with
      | httpStatusError st => left; rfl
      | requestError => left; rfl
      | parseError => left; rfl
      | ok resp =>
        obtain ⟨choices⟩ := resp
        cases choices with
        | nil => left; rfl
        | cons c rest =>
          obtain ⟨msg⟩ := c
          cases msg with
          | none => left; rfl
          | some m =>
            cases hsent : isSentinel (sanitizeList (m.content.getD "").data) with
            | true =>
              simp only [generate_sql]
              rw [show (sanitize (m.content.getD "")).data
                  = sanitizeList (m.content.getD "").data from rfl, hsent]
              simp only [if_true]
              cases uw with
              | httpStatusError st => left; rfl
              | requestError => left; rfl
              | parseError => left; rfl
              | ok fresp =>
                obtain ⟨fchoices⟩ := fresp
                cases fchoices with
                | nil => left; rfl
                | cons fc frest =>
                  obtain ⟨fmsg⟩ := fc
                  cases fmsg with
                  | none => left; rfl
                  | some fm =>
                    left
                    dsimp only
                    split <;> first | rfl | (split <;> rfl)
            | false =>
              right
              simp only [generate_sql]
              rw [show (sanitize (m.content.getD "")).data
                  = sanitizeList (m.content.getD "").data from rfl, hsent]
              rw [if_neg (fun hh => Bool.noConfusion hh)]
              rfl
  · intro h fresp fc rest fm h1 h2 h3 h4
    rw [generate_sql_sentinel_eq inst env h, h1]
    obtain ⟨fchoices⟩ := fresp
    try dsimp only at h2
    subst h2
    obtain ⟨fmsg⟩ := fc
    try dsimp only at h3
    subst h3
    dsimp only [followupReason]
    rw [if_pos h4]

/-- Claim C1 witness: the normalization conjunct applied at a concrete
sentinel run whose follow-up content is whitespace only. -/
theorem C1_amended_witness :
    (generate_sql "q"
        ⟨FetchWire.ok [], CallWire.ok ⟨[⟨some ⟨some "X"⟩⟩]⟩,
         CallWire.ok ⟨[⟨some ⟨some "  "⟩⟩]⟩⟩).1.2 = DEFAULT_REASON :=
  (C1_amended "q" _).2 (by decide) _ _ [] _ rfl rfl rfl (by decide)

/-- Claim C2: any schema-fetch failure (connection failure, non-2xx status,
or malformed body) makes generate_sql return the outcome with reason
exactly Failed to fetch table structure, with ZERO completion-service
calls. -/
theorem C2_schema_failure_short_circuits (inst : String) (env : Env)
    (h : env.schemaWire = FetchWire.requestError
       ∨ (∃ st, env.schemaWire = FetchWire.httpStatusError st)
       ∨ env.schemaWire = FetchWire.parseError) :
    generate_sql inst env = (("", "Failed to fetch table structure"), ⟨1, 0⟩) := by
  obtain ⟨sw, fw, uw⟩ := env
  rcases h with h | ⟨st, h⟩ | h <;> (subst h; rfl)

/-- Claim C2 witness: the short-circuit at a concrete transport failure. -/
theorem C2_witness :
    generate_sql "q" ⟨FetchWire.requestError, CallWire.requestError, CallWire.requestError⟩
      = (("", "Failed to fetch table structure"), ⟨1, 0⟩) :=
  C2_schema_failure_short_circuits "q" _ (Or.inl rfl)

/-- Claim C3: the completions X, X-comma-additional-text and quoted X all
take the sentinel path, and SELECT 1; does not; the sentinel run issues the
follow-up completion call (2 calls) while the non-sentinel run does not
(1 call). -/
theorem C3_sentinel_detection :
    sentinelTaken ⟨FetchWire.ok [], CallWire.ok ⟨[⟨some ⟨some "X"⟩⟩]⟩,
      CallWire.requestError⟩ = true
    ∧ sentinelTaken ⟨FetchWire.ok [], CallWire.ok ⟨[⟨some ⟨some "X, additional text"⟩⟩]⟩,
      CallWire.requestError⟩ = true
    ∧ sentinelTaken ⟨FetchWire.ok [], CallWire.ok ⟨[⟨some ⟨some "\"X\""⟩⟩]⟩,
      CallWire.requestError⟩ = true
    ∧ sentinelTaken ⟨FetchWire.ok [], CallWire.ok ⟨[⟨some ⟨some "SELECT 1;"⟩⟩]⟩,
      CallWire.requestError⟩ = false
    ∧ (generate_sql "q" ⟨FetchWire.ok [], CallWire.ok ⟨[⟨some ⟨some "X"⟩⟩]⟩,
        CallWire.requestError⟩).2.completionCalls = 2
    ∧ (generate_sql "q" ⟨FetchWire.ok [], CallWire.ok ⟨[⟨some ⟨some "SELECT 1;"⟩⟩]⟩,
        CallWire.requestError⟩).2.completionCalls = 1 := by
  decide

/-- Claim C4: whenever the sentinel path is taken, the sql field of the
final outcome is the empty string, over every follow-up outcome. -/
theorem C4_sentinel_forces_empty_sql (inst : String) (env : Env)
    (h : sentinelTaken env = true) :
    (generate_sql inst env).1.1 = "" := by
  obtain ⟨sw, fw, uw⟩ := env
  cases sw with
  | httpStatusError st => rfl
  | requestError => rfl
  | parseError => rfl
  | ok body =>
    cases fw with
    | httpStatusError st => rfl
    | requestError => rfl
    | parseError => rfl
    | ok resp =>
      obtain ⟨choices⟩ := resp
      cases choices with
      | nil => rfl
      | cons c rest =>
        obtain ⟨msg⟩ := c
        cases msg with
        | none => rfl
        | some m =>
          simp only [sentinelTaken, firstContent] at h
          simp only [generate_sql, get_valid_tables, fetch_table_structure]
          rw [show (sanitize (m.content.getD "")).data
              = sanitizeList (m.content.getD "").data from rfl, h]
          simp only [if_true]
          cases uw with
          | httpStatusError st => rfl
          | requestError => rfl
          | parseError => rfl
          | ok fresp =>
            obtain ⟨fchoices⟩ := fresp
            cases fchoices with
            | nil => rfl
            | cons fc frest =>
              obtain ⟨fmsg⟩ := fc
              cases fmsg with
              | none => rfl
              | some fm =>
                dsimp only
                split <;> first | rfl | (split <;> rfl)

/-- Claim C4 witness: sql is suppressed at a concrete sentinel run with
trailing commentary after the X prefix. -/
theorem C4_witness :
    (generate_sql "q"
        ⟨FetchWire.ok [], CallWire.ok ⟨[⟨some ⟨some "X, trailing commentary"⟩⟩]⟩,
         CallWire.ok ⟨[⟨some ⟨some "no such table"⟩⟩]⟩⟩).1.1 = "" :=
  C4_sentinel_forces_empty_sql "q" _ (by decide)

/-- Claim C5, counterexample: the code strips ALL surrounding quote
characters, not a single layer — on a doubly quoted input the code result
differs from the single-layer behavior the claim describes. -/
theorem C5_counterexample :
    sanitize "\"\"SELECT 1;\"\"" = "SELECT 1;"
    ∧ String.mk (sanitizeSingleLayerSpec ("\"\"SELECT 1;\"\"").data) = "\"SELECT 1;\""
    ∧ sanitize "\"\"SELECT 1;\"\"" ≠ String.mk (sanitizeSingleLayerSpec ("\"\"SELECT 1;\"\"").data) := by
  decide

/-- Claim C5 (amended): sanitization removes surrounding whitespace, ALL
surrounding quote characters (every layer, not just one), and literal
escaped-quote sequences; sanitizing the quoted SELECT example yields the
bare statement, and one more surrounding quote layer around any content is
absorbed together with every quote layer underneath it. -/
theorem C5_amended :
    sanitize "\"SELECT * FROM t;\"" = "SELECT * FROM t;"
    ∧ ∀ l : List Char,
        sanitizeList ('"' :: (l ++ ['"'])) = removeEscapedQuotes (pyStripQuotes l) := by
  constructor
  · decide
  · intro l
    unfold sanitizeList
    rw [show pyStrip ('"' :: (l ++ ['"'])) = '"' :: (l ++ ['"']) from
      pyStripList_id pyWhitespace '"' '"' l rfl rfl]
    rw [stripQuotes_wrap]

/-- Claim C6, counterexample: a first completion whose message object is
present but carries no content key is treated as empty content, NOT as the
structural error — the outcome is both-empty, not Invalid API response
structure, refuting the missing-message-content part of the claim. -/
theorem C6_counterexample :
    (generate_sql "q" ⟨FetchWire.ok [], CallWire.ok ⟨[⟨some ⟨none⟩⟩]⟩,
        CallWire.requestError⟩).1.2
      ≠ "Invalid API response structure"
    ∧ (generate_sql "q" ⟨FetchWire.ok [], CallWire.ok ⟨[⟨some ⟨none⟩⟩]⟩,
        CallWire.requestError⟩).1
      = ("", "") := by decide

/-- Claim C6 (amended): first-call failure mapping — missing or empty
choices list, or a missing message object, yields Invalid API response
structure; an HTTP status failure yields API error: status; a
connection-level failure yields API request failed with no follow-up call;
a body-parse failure yields Invalid API response format; a message whose
content key is missing is treated as empty content rather than a
structural error. -/
theorem C6_amended (inst : String) (env : Env)
    (body : SchemaDescription) (hs : env.schemaWire = FetchWire.ok body) :
    (∀ st, env.firstWire = CallWire.httpStatusError st →
        generate_sql inst env = (("", "API error: " ++ toString st), ⟨1, 1⟩))
    ∧ (env.firstWire = CallWire.requestError →
        generate_sql inst env = (("", "API request failed"), ⟨1, 1⟩))
    ∧ (env.firstWire = CallWire.parseError →
        generate_sql inst env = (("", "Invalid API response format"), ⟨1, 1⟩))
    ∧ (∀ resp, env.firstWire = CallWire.ok resp → resp.choices = [] →
        generate_sql inst env = (("", "Invalid API response structure"), ⟨1, 1⟩))
    ∧ (∀ resp fc rest, env.firstWire = CallWire.ok resp →
        resp.choices = fc :: rest → fc.message = none →
        generate_sql inst env = (("", "Invalid API response structure"), ⟨1, 1⟩)) := by
  obtain ⟨sw, fw, uw⟩ := env
  try dsimp only at hs
  subst hs
  refine ⟨?_, ?_, ?_, ?_, ?_⟩
  · intro st h1; try dsimp only at h1
    subst h1; rfl
  · intro h1; try dsimp only at h1
    subst h1; rfl
  · intro h1; try dsimp only at h1
    subst h1; rfl
  · intro resp h1 h2; try dsimp only at h1
    subst h1
    obtain ⟨choices⟩ := resp
    try dsimp only at h2
    subst h2; rfl
  · intro resp fc rest h1 h2 h3; try dsimp only at h1
    subst h1
    obtain ⟨choices⟩ := resp
    try dsimp only at h2
    subst h2
    obtain ⟨msg⟩ := fc
    try dsimp only at h3
    subst h3; rfl

/-- Claim C6 witness: the connection-failure mapping at a concrete run,
with exactly one completion call. -/
theorem C6_amended_witness :
    generate_sql "q" ⟨FetchWire.ok [], CallWire.requestError, CallWire.requestError⟩
      = (("", "API request failed"), ⟨1, 1⟩) :=
  (C6_amended "q" _ [] rfl).2.1 rfl

/-- Claim C7: on the sentinel path with a structurally valid follow-up, an
all-whitespace follow-up content yields the default reason, and otherwise
the reason is exactly the trimmed follow-up content. -/
theorem C7_followup_reason (inst : String) (env : Env)
    (h : sentinelTaken env = true)
    (fresp : ApiResponse) (fc : Choice) (rest : List Choice) (fm : Message)
    (h1 : env.followUpWire = CallWire.ok fresp)
    (h2 : fresp.choices = fc :: rest)
    (h3 : fc.message = some fm) :
    (pyStrip (fm.content.getD "").data = [] →
        (generate_sql inst env).1.2 = DEFAULT_REASON)
    ∧ (pyStrip (fm.content.getD "").data ≠ [] →
        (generate_sql inst env).1.2 = String.mk (pyStrip (fm.content.getD "").data)) := by
  obtain ⟨body, resp, c, rest', m, hs, hf, hc, hm, hsent⟩ := sentinelTaken_elim h
  obtain ⟨sw, fw, uw⟩ := env
  try dsimp only at hs hf h1
  subst hs; subst hf; subst h1
  obtain ⟨choices⟩ := resp
  try dsimp only at hc
  subst hc
  obtain ⟨fchoices⟩ := fresp
  try dsimp only at h2
  subst h2
  obtain ⟨msg⟩ := c
  try dsimp only at hm
  subst hm
  obtain ⟨fmsg⟩ := fc
  try dsimp only at h3
  subst h3
  simp only [generate_sql]
  rw [show (sanitize (m.content.getD "")).data
      = sanitizeList (m.content.getD "").data from rfl, hsent]
  simp only [if_true]
  constructor
  · intro he
    rw [he, if_pos (by decide)]
    rfl
  · intro hne
    have hne' : String.mk (pyStrip (fm.content.getD "").data) ≠ "" := by
      intro hh
      apply hne
      have hd := congrArg String.data hh
      simpa using hd
    rw [if_neg hne']
    rfl

/-- Claim C7 witness: the trimmed follow-up content becomes the reason at a
concrete sentinel run. -/
theorem C7_witness :
    (generate_sql "q"
        ⟨FetchWire.ok [], CallWire.ok ⟨[⟨some ⟨some "X"⟩⟩]⟩,
         CallWire.ok ⟨[⟨some ⟨some "  Table does not exist  "⟩⟩]⟩⟩).1.2
      = String.mk (pyStrip ("  Table does not exist  " : String).data) :=
  (C7_followup_reason "q" _ (by decide) _ _ [] ⟨some "  Table does not exist  "⟩
    rfl rfl rfl).2 (by decide)

/-- Claim C8: the generation endpoint always carries the permissive CORS
header; a missing or blank query yields status 400 with zero network
calls; a valid request with the API key present yields status 200 with a
result body in which at most one of sql_query and error_reason is
non-empty; a valid request with the key missing yields status 502. -/
theorem C8_endpoint (req : LambdaRequest) (key : Bool) (env : Env) :
    ((handle req key env).1.corsAllowOrigin = true)
    ∧ (req.bodyIsValidJson = true → req.query = none →
        (handle req key env).1.statusCode = 400 ∧ (handle req key env).2 = ⟨0, 0⟩)
    ∧ (∀ s, req.bodyIsValidJson = true → req.query = some s →
        pyStrip s.data = [] →
        (handle req key env).1.statusCode = 400 ∧ (handle req key env).2 = ⟨0, 0⟩)
    ∧ (∀ s, req.bodyIsValidJson = true → req.query = some s →
        pyStrip s.data ≠ [] → key = true →
        (handle req key env).1.statusCode = 200
        ∧ ∃ a b, (handle req key env).1.body = ResponseBody.resultBody a b
            ∧ (a = "" ∨ b = ""))
    ∧ (∀ s, req.bodyIsValidJson = true → req.query = some s →
        pyStrip s.data ≠ [] → key = false →
        (handle req key env).1.statusCode = 502) := by
  obtain ⟨bv, q⟩ := req
  refine ⟨?_, ?_, ?_, ?_, ?_⟩
  · cases bv with
    | false => rfl
    | true =>
      cases q with
      | none => rfl
      | some nl =>
        simp only [handle]
        split
        · rfl
        · cases key with
          | false => rfl
          | true => dsimp only; split <;> rfl
  · intro h1 h2
    try dsimp only at h1 h2
    subst h1; subst h2
    exact ⟨rfl, rfl⟩
  · intro s h1 h2 h3
    try dsimp only at h1 h2
    subst h1; subst h2
    simp only [handle]
    rw [if_pos h3]
    exact ⟨rfl, rfl⟩
  · intro s h1 h2 h3 h4
    try dsimp only at h1 h2
    subst h1; subst h2; subst h4
    simp only [handle]
    rw [if_neg h3]
    constructor
    · split <;> rfl
    · split
      · exact ⟨"", (generate_sql (String.mk (pyStrip s.data)) env).1.2, rfl, Or.inl rfl⟩
      · exact ⟨(generate_sql (String.mk (pyStrip s.data)) env).1.1, "", rfl, Or.inr rfl⟩
  · intro s h1 h2 h3 h4
    try dsimp only at h1 h2
    subst h1; subst h2; subst h4
    simp only [handle]
    rw [if_neg h3]

/-- Claim C8 witness: a blank query is rejected with 400 and no network
call at a concrete request. -/
theorem C8_witness :
    ((handle ⟨true, some "   "⟩ true
        ⟨FetchWire.requestError, CallWire.requestError, CallWire.requestError⟩).1.statusCode = 400
      ∧ (handle ⟨true, some "   "⟩ true
          ⟨FetchWire.requestError, CallWire.requestError, CallWire.requestError⟩).2 = ⟨0, 0⟩) :=
  (C8_endpoint _ _ _).2.2.1 "   " rfl rfl (by decide)

/-- Claim C9, counterexample: a follow-up connection failure produces the
reason API request failed — exactly the string the same failure produces
on the first call — refuting the claim that every follow-up failure has a
reason string distinct from the first-call one. -/
theorem C9_counterexample :
    sentinelTaken ⟨FetchWire.ok [], CallWire.ok ⟨[⟨some ⟨some "X"⟩⟩]⟩,
      CallWire.requestError⟩ = true
    ∧ (generate_sql "q"
        ⟨FetchWire.ok [], CallWire.ok ⟨[⟨some ⟨some "X"⟩⟩]⟩, CallWire.requestError⟩).1.2
        = "API request failed"
    ∧ (generate_sql "q"
        ⟨FetchWire.ok [], CallWire.requestError, CallWire.requestError⟩).1.2
        = "API request failed" := by decide

/-- Claim C9 (amended): on the sentinel path, structural follow-up
failures yield the default reason Failed to determine error reason, which
differs from the first-call structural string Invalid API response
structure; but transport, HTTP-status and parse failures of the follow-up
are handled by the same handlers as the first call and produce identical
reason strings. -/
theorem C9_amended (inst : String) (env : Env)
    (h : sentinelTaken env = true) :
    (env.followUpWire = CallWire.requestError →
        (generate_sql inst env).1.2 = "API request failed")
    ∧ (∀ st, env.followUpWire = CallWire.httpStatusError st →
        (generate_sql inst env).1.2 = "API error: " ++ toString st)
    ∧ (env.followUpWire = CallWire.parseError →
        (generate_sql inst env).1.2 = "Invalid API response format")
    ∧ (∀ fresp, env.followUpWire = CallWire.ok fresp → fresp.choices = [] →
        (generate_sql inst env).1.2 = DEFAULT_REASON)
    ∧ (∀ fresp fc rest, env.followUpWire = CallWire.ok fresp →
        fresp.choices = fc :: rest → fc.message = none →
        (generate_sql inst env).1.2 = DEFAULT_REASON)
    ∧ DEFAULT_REASON ≠ "Invalid API response structure" := by
  rw [generate_sql_sentinel_eq inst env h]
  refine ⟨?_, ?_, ?_, ?_, ?_, by decide⟩
  · intro h1; rw [h1]; rfl
  · intro st h1; rw [h1]; rfl
  · intro h1; rw [h1]; rfl
  · intro fresp h1 h2
    rw [h1]
    obtain ⟨fchoices⟩ := fresp
    try dsimp only at h2
    subst h2; rfl
  · intro fresp fc rest h1 h2 h3
    rw [h1]
    obtain ⟨fchoices⟩ := fresp
    try dsimp only at h2
    subst h2
    obtain ⟨fmsg⟩ := fc
    try dsimp only at h3
    subst h3; rfl

/-- Claim C9 witness: a structurally empty follow-up response yields the
distinct default reason at a concrete sentinel run. -/
theorem C9_amended_witness :
    (generate_sql "q"
        ⟨FetchWire.ok [], CallWire.ok ⟨[⟨some ⟨some "X"⟩⟩]⟩,
         CallWire.ok ⟨[]⟩⟩).1.2 = DEFAULT_REASON :=
  (C9_amended "q" _ (by decide)).2.2.2.1 _ rfl rfl

/-- Claim C10: the escaped-quote removal is global, not edge-only — for a
completion with an interior backslash-quote occurrence (non-sentinel,
no surrounding whitespace or quotes, backslash-free prefix), the returned
sql is the input with that occurrence and every later occurrence removed
by the single left-to-right pass. -/
theorem C10_interior_escaped_quotes (inst : String) (a : Char) (u : List Char)
    (b : Char) (v : List Char) (body : SchemaDescription)
    (ha1 : pyWhitespace a = false) (ha2 : isQuoteChar a = false)
    (ha3 : ¬ a = '\\') (ha4 : ¬ a = 'X') (hu : '\\' ∉ u)
    (hb1 : pyWhitespace b = false) (hb2 : isQuoteChar b = false) :
    (generate_sql inst
        ⟨FetchWire.ok body,
         CallWire.ok ⟨[⟨some ⟨some (String.mk (a :: (u ++ '\\' :: '"' :: (v ++ [b]))))⟩⟩]⟩,
         CallWire.requestError⟩).1
      = (String.mk (a :: (u ++ removeEscapedQuotes (v ++ [b]))), "") := by
  have hlist : a :: (u ++ '\\' :: '"' :: (v ++ [b]))
      = a :: ((u ++ '\\' :: '"' :: v) ++ [b]) := by
    simp
  have hsan : sanitizeList (a :: (u ++ '\\' :: '"' :: (v ++ [b])))
      = a :: (u ++ removeEscapedQuotes (v ++ [b])) := by
    unfold sanitizeList pyStrip pyStripQuotes
    rw [hlist, pyStripList_id pyWhitespace a b _ ha1 hb1,
      pyStripList_id isQuoteChar a b _ ha2 hb2, ← hlist]
    have hnot : '\\' ∉ a :: u := by
      intro hmem
      rcases List.mem_cons.mp hmem with he | hm
      · exact ha3 he.symm
      · exact hu hm
    have h2 : a :: (u ++ '\\' :: '"' :: (v ++ [b]))
        = (a :: u) ++ '\\' :: '"' :: (v ++ [b]) := rfl
    rw [h2, removeEscapedQuotes_append (a :: u) (v ++ [b]) hnot]
    rfl
  have hs2 : sanitize (String.mk (a :: (u ++ '\\' :: '"' :: (v ++ [b]))))
      = String.mk (a :: (u ++ removeEscapedQuotes (v ++ [b]))) := by
    unfold sanitize
    rw [show (String.mk (a :: (u ++ '\\' :: '"' :: (v ++ [b])))).data
        = a :: (u ++ '\\' :: '"' :: (v ++ [b])) from rfl, hsan]
  have hsent : isSentinel (a :: (u ++ removeEscapedQuotes (v ++ [b]))) = false := by
    simp only [isSentinel, startsWithX, Bool.or_eq_false_iff,
      decide_eq_false_iff_not]
    refine ⟨fun hh => ?_, ha4⟩
    injection hh with hh1 hh2
    exact ha4 hh1
  simp only [generate_sql, Option.getD_some]
  rw [hs2]
  rw [show (String.mk (a :: (u ++ removeEscapedQuotes (v ++ [b])))).data
      = a :: (u ++ removeEscapedQuotes (v ++ [b])) from rfl, hsent]
  rw [if_neg (fun hh => Bool.noConfusion hh)]
  rfl

/-- Claim C10 witness: a concrete completion with an interior
escaped-quote sequence loses exactly that sequence. -/
theorem C10_witness :
    (generate_sql "q"
        ⟨FetchWire.ok [],
         CallWire.ok ⟨[⟨some ⟨some (String.mk ('S' :: (['E'] ++ '\\' :: '"' :: (['n'] ++ ['t']))))⟩⟩]⟩,
         CallWire.requestError⟩).1
      = (String.mk ('S' :: (['E'] ++ removeEscapedQuotes (['n'] ++ ['t']))), "") :=
  C10_interior_escaped_quotes "q" 'S' ['E'] 't' ['n'] []
    (by decide) (by decide) (by decide) (by decide) (by decide)
    (by decide) (by decide)

end ChatDB
